import Mathlib

/-!
Shallow embedding of the TOPP ConsensusID tool (`src/src/topp/ConsensusID.cpp`).

The tool reconciles peptide identifications from several identification runs.
Its `main_` routine dispatches on the detected input file type:
for idXML input it checks that every peptide identification carries RT and
m/z, converts the identifications into per-run feature maps, groups them with
`FeatureGroupingAlgorithmQT`, applies the selected consensus algorithm to each
group and collects the best hit per non-empty group; for featureXML and
consensusXML input it applies the consensus algorithm to each feature directly.
Afterwards it replaces the protein identification (run metadata) records with a
single fresh record and stores the result.

External collaborators that live outside this translation unit — the feature
grouping algorithm (`FeatureGroupingAlgorithmQT::group`) and the polymorphic
consensus scorers (`ConsensusIDAlgorithm::apply`) — are modelled as function
parameters of `main_`; every theorem that depends on them quantifies over all
such functions, so the results hold for any behaviour of those collaborators.
Doubles are modelled as rationals, timestamps (`DateTime::now()`) and the build
version (`VersionInfo::getVersion()`) as an explicit context value.
-/

namespace ConsensusID

/-- Parameter values stored in an OpenMS `Param` object: strings, doubles
(modelled as rationals) and integers. -/
inductive PV where
  | s (v : String)
  | f (v : Rat)
  | i (v : Int)
deriving DecidableEq, Repr

/-- An OpenMS `Param` object, modelled as an association list from key to
value. -/
abbrev Params := List (String × PV)

/-- `Param::setValue`: overwrite the entry for `key` if present, otherwise
append a new entry. -/
def setValue : Params → String → PV → Params
  | [], key, v => [(key, v)]
  | (k, w) :: rest, key, v =>
    if k == key then (key, v) :: rest else (k, w) :: setValue rest key v

/-- Lookup of a parameter value by key. -/
def getValue : Params → String → Option PV
  | [], _ => none
  | (k, w) :: rest, key => if k == key then some w else getValue rest key

/-- One candidate hit of a peptide identification (sequence and score). -/
structure PeptideHit where
  sequence : String
  score : Rat
deriving DecidableEq, Repr

/-- `PeptideIdentification`: one identification event. `identifier` names the
identification run it belongs to; `rt` and `mz` are optional coordinates
(`none` models the C++ state in which `hasRT()` / `hasMZ()` is false);
`scoreType` tags the score semantics of its hits. -/
structure PeptideIdentification where
  identifier : String
  scoreType : String
  rt : Option Rat
  mz : Option Rat
  hits : List PeptideHit
deriving DecidableEq, Repr

/-- `PeptideIdentification::hasRT`. -/
def PeptideIdentification.hasRT (p : PeptideIdentification) : Bool :=
  p.rt.isSome

/-- `PeptideIdentification::hasMZ`. -/
def PeptideIdentification.hasMZ (p : PeptideIdentification) : Bool :=
  p.mz.isSome

/-- `ProteinIdentification`: the per-run metadata record. -/
structure ProteinIdentification where
  identifier : String
  searchEngine : String
  searchEngineVersion : String
  dateTime : Int
deriving DecidableEq, Repr

/-- A `Feature` as built in the idXML branch: RT/m-z coordinates plus the
attached peptide identifications. -/
structure Feature where
  rt : Rat
  mz : Rat
  peptideIdentifications : List PeptideIdentification
deriving DecidableEq, Repr

/-- A `FeatureMap` as loaded from featureXML: features plus the protein
identification (run metadata) records. -/
structure FeatureMap where
  features : List Feature
  proteinIdentifications : List ProteinIdentification
deriving DecidableEq, Repr

/-- A `ConsensusFeature`: centroid coordinates plus attached peptide
identifications. -/
structure ConsensusFeature where
  rt : Rat
  mz : Rat
  peptideIdentifications : List PeptideIdentification
deriving DecidableEq, Repr

/-- A `ConsensusMap` as loaded from consensusXML. -/
structure ConsensusMap where
  features : List ConsensusFeature
  proteinIdentifications : List ProteinIdentification
deriving DecidableEq, Repr

/-- Ambient context injected into the run: `DateTime::now()` and
`VersionInfo::getVersion()`. -/
structure ToolContext where
  now : Int
  version : String
deriving DecidableEq, Repr

/-- The tool configuration read from the command line: `rt_delta`, `mz_delta`,
`considered_hits`, the `algorithm` choice, and the two algorithm-specific
subsections copied by `getParam_().copy(...)`. -/
structure ToolConfig where
  rt_delta : Rat
  mz_delta : Rat
  considered_hits : Int
  algorithm : String
  pepMatrixParams : Params
  pepIonsParams : Params
deriving DecidableEq, Repr

/-- Exit codes of the tool (the subset relevant here). -/
inductive ExitCodes where
  | EXECUTION_OK
  | INCOMPATIBLE_INPUT_DATA
  | ILLEGAL_PARAMETERS
deriving DecidableEq, Repr

/-- The detected input: content of the file by detected type. `unknown` models
a file whose type is none of idXML, featureXML, consensusXML. -/
inductive ToolInput where
  | idXML (protIds : List ProteinIdentification) (pepIds : List PeptideIdentification)
  | featureXML (m : FeatureMap)
  | consensusXML (m : ConsensusMap)
  | unknown
deriving DecidableEq, Repr

/-- What the tool stored: the file written by the taken branch, or `noStore`
when no store call was executed. -/
inductive ToolOutput where
  | idXML (protIds : List ProteinIdentification) (pepIds : List PeptideIdentification)
  | featureXML (m : FeatureMap)
  | consensusXML (m : ConsensusMap)
  | noStore
deriving DecidableEq, Repr

/-- `TOPPConsensusID::setProteinIdentifications_`: clear the vector, resize to
one default record, and set its date, search engine name and version. The
input records are discarded. -/
def setProteinIdentifications_ (ctx : ToolContext)
    (_prot_ids : List ProteinIdentification) : List ProteinIdentification :=
  [{ identifier := ""
     searchEngine := "OpenMS/ConsensusID"
     searchEngineVersion := ctx.version
     dateTime := ctx.now }]

/-- The `id_mapping` built in the idXML branch: run identifier to feature-map
index. The C++ `std::map` is written by ascending index so a duplicate run
identifier keeps the last index, and `operator[]` on an unseen identifier
value-initializes to 0. -/
def idMapping (protIds : List ProteinIdentification) (runId : String) : Nat :=
  let step : Nat × Nat → ProteinIdentification → Nat × Nat := fun acc p =>
    if p.identifier == runId then (acc.2, acc.2 + 1) else (acc.1, acc.2 + 1)
  (protIds.foldl step (0, 0)).1

/-- `maps[i].push_back(f)` on the vector of per-run feature maps. -/
def pushFeature (maps : List (List Feature)) (i : Nat) (f : Feature) :
    List (List Feature) :=
  maps.set i (maps.getD i [] ++ [f])

/-- The per-peptide loop of the idXML branch: for each peptide identification
in order, fail (return `none`, modelling the `INCOMPATIBLE_INPUT_DATA` early
return) as soon as one lacks RT or m/z, otherwise wrap it in a feature at its
coordinates and append it to the map of its run. -/
def collectFeatures (idx : String → Nat) :
    List PeptideIdentification → List (List Feature) → Option (List (List Feature))
  | [], maps => some maps
  | p :: rest, maps =>
    if p.hasRT && p.hasMZ then
      collectFeatures idx rest
        (pushFeature maps (idx p.identifier)
          { rt := p.rt.getD 0, mz := p.mz.getD 0, peptideIdentifications := [p] })
    else
      none

/-- The per-run feature maps built from an idXML input (`vector<FeatureMap>
maps(prot_ids.size())` filled by the peptide loop), or `none` when a peptide
identification lacks RT or m/z. -/
def builtMaps (protIds : List ProteinIdentification)
    (pepIds : List PeptideIdentification) : Option (List (List Feature)) :=
  collectFeatures (idMapping protIds) pepIds (List.replicate protIds.length [])

/-- The parameters handed to `FeatureGroupingAlgorithmQT` in the idXML branch:
the linker defaults overridden with `use_identifications = "false"`,
`ignore_charge = "true"`, `distance_RT:max_difference = rt_delta`,
`distance_MZ:max_difference = mz_delta` and `distance_MZ:unit = "Da"`. -/
def linkerParams (defaults : Params) (rt_delta mz_delta : Rat) : Params :=
  setValue
    (setValue
      (setValue
        (setValue
          (setValue defaults "use_identifications" (.s "false"))
          "ignore_charge" (.s "true"))
        "distance_RT:max_difference" (.f rt_delta))
      "distance_MZ:max_difference" (.f mz_delta))
    "distance_MZ:unit" (.s "Da")

/-- The `algo_param` value before the input-shape branches: the subsection
copied for PEPMatrix or PEPIons (empty otherwise), with `considered_hits`
set from the command line. -/
def baseAlgoParams (cfg : ToolConfig) : Params :=
  let sub : Params :=
    if cfg.algorithm == "PEPMatrix" then cfg.pepMatrixParams
    else if cfg.algorithm == "PEPIons" then cfg.pepIonsParams
    else []
  setValue sub "considered_hits" (.i cfg.considered_hits)

/-- The parameter set passed to `consensus->setParameters` in each input-shape
branch: the idXML branch sets `number_of_runs` to the number of protein
identification runs, while the featureXML and consensusXML branches set the
key `ranks:number_of_runs` instead. -/
def scorerParams (cfg : ToolConfig) : ToolInput → Params
  | .idXML protIds _ =>
    setValue (baseAlgoParams cfg) "number_of_runs" (.i (protIds.length : Int))
  | .featureXML m =>
    setValue (baseAlgoParams cfg) "ranks:number_of_runs"
      (.i (m.proteinIdentifications.length : Int))
  | .consensusXML m =>
    setValue (baseAlgoParams cfg) "ranks:number_of_runs"
      (.i (m.proteinIdentifications.length : Int))
  | .unknown => baseAlgoParams cfg

/-- The consensus loop of the idXML branch: iterate the grouping in order,
apply the scorer to each consensus feature's peptide identifications, and for
a non-empty result push its first entry with RT/m-z set to the feature's
centroid coordinates. -/
def scoreGroups (applyHits : List PeptideIdentification → List PeptideIdentification) :
    List ConsensusFeature → List PeptideIdentification
  | [] => []
  | cf :: rest =>
    match applyHits cf.peptideIdentifications with
    | [] => scoreGroups applyHits rest
    | h :: _ =>
      { h with rt := some cf.rt, mz := some cf.mz } :: scoreGroups applyHits rest

/-- `TOPPConsensusID::main_`. `linkerDefaults` stands for
`FeatureGroupingAlgorithmQT::getDefaults()`, `groupFn` for the linker's
`group` member (invoked with the parameters built by `linkerParams`), and
`applyFn` for `ConsensusIDAlgorithm::apply` of the selected algorithm
(invoked with the parameters passed to `setParameters`). -/
def main_ (cfg : ToolConfig) (ctx : ToolContext) (linkerDefaults : Params)
    (groupFn : Params → List (List Feature) → List ConsensusFeature)
    (applyFn : Params → List PeptideIdentification → List PeptideIdentification) :
    ToolInput → ExitCodes × ToolOutput
  | .idXML protIds pepIds =>
    match builtMaps protIds pepIds with
    | none => (.INCOMPATIBLE_INPUT_DATA, .noStore)
    | some maps =>
      let grouping := groupFn (linkerParams linkerDefaults cfg.rt_delta cfg.mz_delta) maps
      let newPeps := scoreGroups (applyFn (scorerParams cfg (.idXML protIds pepIds))) grouping
      (.EXECUTION_OK, .idXML (setProteinIdentifications_ ctx protIds) newPeps)
  | .featureXML m =>
    let ap := scorerParams cfg (.featureXML m)
    let newFeatures := m.features.map fun f =>
      { f with peptideIdentifications := applyFn ap f.peptideIdentifications }
    (.EXECUTION_OK, .featureXML
      { features := newFeatures
        proteinIdentifications := setProteinIdentifications_ ctx m.proteinIdentifications })
  | .consensusXML m =>
    let ap := scorerParams cfg (.consensusXML m)
    let newFeatures := m.features.map fun f =>
      { f with peptideIdentifications := applyFn ap f.peptideIdentifications }
    (.EXECUTION_OK, .consensusXML
      { features := newFeatures
        proteinIdentifications := setProteinIdentifications_ ctx m.proteinIdentifications })
  | .unknown => (.EXECUTION_OK, .noStore)

/-- The valid values registered for the `algorithm` option. -/
def validAlgos : List String := ["PEPMatrix", "PEPIons", "best", "average", "ranks"]

/-- The restrictions registered in `registerOptionsAndFlags_`:
`setMinFloat_("rt_delta", 0.0)`, `setMinFloat_("mz_delta", 0.0)`,
`setMinInt_("considered_hits", 0)` and
`setValidStrings_("algorithm", ...)`. -/
def validConfig (cfg : ToolConfig) : Bool :=
  decide (0 ≤ cfg.rt_delta) && decide (0 ≤ cfg.mz_delta) &&
    decide (0 ≤ cfg.considered_hits) && validAlgos.contains cfg.algorithm

/-- Modelled from the spec: the framework wrapper around `main_`. The
enforcement of the restrictions registered in `registerOptionsAndFlags_`
(lines 147-161 of the source) lives in `TOPPBase`, which is not part of the
sources at hand; per the spec, configuration violations are detected before
any grouping or scoring work begins, so an invalid configuration never
reaches `main_`. -/
def runTool (cfg : ToolConfig) (ctx : ToolContext) (linkerDefaults : Params)
    (groupFn : Params → List (List Feature) → List ConsensusFeature)
    (applyFn : Params → List PeptideIdentification → List PeptideIdentification)
    (input : ToolInput) : ExitCodes × ToolOutput :=
  if validConfig cfg then main_ cfg ctx linkerDefaults groupFn applyFn input
  else (.ILLEGAL_PARAMETERS, .noStore)

/-- Protein identification records carried by an output. -/
def outputProtIds : ToolOutput → List ProteinIdentification
  | .idXML protIds _ => protIds
  | .featureXML m => m.proteinIdentifications
  | .consensusXML m => m.proteinIdentifications
  | .noStore => []

/-- Peptide identifications carried by an idXML output. -/
def outputPepIds : ToolOutput → List PeptideIdentification
  | .idXML _ pepIds => pepIds
  | _ => []

/-- Erase the timestamps of the run metadata records of an output. -/
def stripTimes : ToolOutput → ToolOutput
  | .idXML protIds pepIds => .idXML (protIds.map fun p => { p with dateTime := 0 }) pepIds
  | .featureXML m => .featureXML
    { m with proteinIdentifications :=
        m.proteinIdentifications.map fun p => { p with dateTime := 0 } }
  | .consensusXML m => .consensusXML
    { m with proteinIdentifications :=
        m.proteinIdentifications.map fun p => { p with dateTime := 0 } }
  | .noStore => .noStore

/-! Concrete test data used to evaluate the embedding at explicit inputs. -/

/-- A configuration using the `best` algorithm with in-range values. -/
def cfg0 : ToolConfig :=
  { rt_delta := 1, mz_delta := 1, considered_hits := 10, algorithm := "best"
    pepMatrixParams := [], pepIonsParams := [] }

/-- A configuration selecting the probabilistic `PEPMatrix` algorithm. -/
def cfgPM : ToolConfig :=
  { rt_delta := 1, mz_delta := 1, considered_hits := 10, algorithm := "PEPMatrix"
    pepMatrixParams := [], pepIonsParams := [] }

/-- A configuration selecting the `ranks` algorithm. -/
def cfgRanks : ToolConfig :=
  { rt_delta := 1, mz_delta := 1, considered_hits := 10, algorithm := "ranks"
    pepMatrixParams := [], pepIonsParams := [] }

/-- A configuration with a negative `rt_delta`. -/
def cfgNeg : ToolConfig :=
  { rt_delta := -1, mz_delta := 1, considered_hits := 10, algorithm := "best"
    pepMatrixParams := [], pepIonsParams := [] }

/-- A context value standing for one invocation time. -/
def ctx0 : ToolContext := { now := 0, version := "2.0.0" }

/-- A context value standing for a later invocation time. -/
def ctxLater : ToolContext := { now := 1, version := "2.0.0" }

/-- A sample hit. -/
def hitA : PeptideHit := { sequence := "PEPTIDEA", score := 9 }

/-- A peptide identification with both coordinates, carrying a raw
(non-PEP) score type. -/
def pepGood : PeptideIdentification :=
  { identifier := "run1", scoreType := "XTandem", rt := some 100, mz := some 500
    hits := [hitA] }

/-- A peptide identification with RT present but m/z absent. -/
def pepBad : PeptideIdentification :=
  { identifier := "run1", scoreType := "PEP", rt := some 100, mz := none
    hits := [hitA] }

/-- Metadata of a single input run. -/
def protIds1 : List ProteinIdentification :=
  [{ identifier := "run1", searchEngine := "XTandem", searchEngineVersion := "1"
     dateTime := 0 }]

/-- Metadata of two input runs. -/
def protIds2 : List ProteinIdentification :=
  [{ identifier := "run1", searchEngine := "XTandem", searchEngineVersion := "1"
     dateTime := 0 },
   { identifier := "run2", searchEngine := "Mascot", searchEngineVersion := "1"
     dateTime := 0 }]

/-- A feature map with no features and one run. -/
def fm0 : FeatureMap := { features := [], proteinIdentifications := protIds1 }

/-- A feature map whose single feature carries a peptide identification that
lacks m/z. -/
def fmBad : FeatureMap :=
  { features := [{ rt := 100, mz := 500, peptideIdentifications := [pepBad] }]
    proteinIdentifications := protIds1 }

/-- A feature map with two runs and no features. -/
def fm2 : FeatureMap := { features := [], proteinIdentifications := protIds2 }

/-- A consensus map with no features and one run. -/
def cm0 : ConsensusMap := { features := [], proteinIdentifications := protIds1 }

/-- A consensus map with two runs and no features. -/
def cm2 : ConsensusMap := { features := [], proteinIdentifications := protIds2 }

/-- A sample consensus feature. -/
def cf0 : ConsensusFeature :=
  { rt := 100, mz := 500, peptideIdentifications := [pepGood] }

/-- A grouping function returning no groups. -/
def g0 : Params → List (List Feature) → List ConsensusFeature := fun _ _ => []

/-- A grouping function returning one group. -/
def g1 : Params → List (List Feature) → List ConsensusFeature := fun _ _ => [cf0]

/-- A scorer that returns its input hits unchanged. -/
def aId : Params → List PeptideIdentification → List PeptideIdentification :=
  fun _ l => l

/-- A scorer that always yields an empty result. -/
def aEmpty : Params → List PeptideIdentification → List PeptideIdentification :=
  fun _ _ => []

/-- The per-run maps built from `protIds1` and `[pepGood]`. -/
def mapsGood : List (List Feature) :=
  [[{ rt := 100, mz := 500, peptideIdentifications := [pepGood] }]]

/-! Helper lemmas. -/

theorem getValue_setValue_self (ps : Params) (k : String) (v : PV) :
    getValue (setValue ps k v) k = some v := by
  induction ps with
  | nil => simp [setValue, getValue]
  | cons hd tl ih =>
    obtain ⟨a, b⟩ := hd
    by_cases h : (a == k) = true
    · simp [setValue, h, getValue]
    · simp [setValue, h, getValue, ih]

theorem getValue_setValue_of_ne (ps : Params) (k k2 : String) (v : PV)
    (h : (k == k2) = false) :
    getValue (setValue ps k v) k2 = getValue ps k2 := by
  induction ps with
  | nil => simp [setValue, getValue, h]
  | cons hd tl ih =>
    obtain ⟨a, b⟩ := hd
    by_cases ha : (a == k) = true
    · have ha2 : a = k := by simpa using ha
      subst ha2
      simp [setValue, getValue, h]
    · simp [setValue, ha, getValue, ih]

theorem collectFeatures_eq_none (idx : String → Nat)
    (l : List PeptideIdentification)
    (h : ∃ p ∈ l, p.hasRT = false ∨ p.hasMZ = false) :
    ∀ maps, collectFeatures idx l maps = none := by
  induction l with
  | nil => simp at h
  | cons p rest ih =>
    intro maps
    by_cases hp : (p.hasRT && p.hasMZ) = true
    · have hrest : ∃ q ∈ rest, q.hasRT = false ∨ q.hasMZ = false := by
        obtain ⟨q, hq, hbad⟩ := h
        rcases List.mem_cons.mp hq with h2 | hq2
        · subst h2
          rcases hbad with h1 | h1 <;> simp [h1] at hp
        · exact ⟨q, hq2, hbad⟩
      simp only [collectFeatures, hp, if_true]
      exact ih hrest _
    · simp [collectFeatures, hp]

theorem main_idXML_incompatible (cfg : ToolConfig) (ctx : ToolContext) (d : Params)
    (g : Params → List (List Feature) → List ConsensusFeature)
    (a : Params → List PeptideIdentification → List PeptideIdentification)
    (protIds : List ProteinIdentification) (pepIds : List PeptideIdentification)
    (h : ∃ p ∈ pepIds, p.hasRT = false ∨ p.hasMZ = false) :
    main_ cfg ctx d g a (.idXML protIds pepIds) = (.INCOMPATIBLE_INPUT_DATA, .noStore) := by
  have hb : builtMaps protIds pepIds = none :=
    collectFeatures_eq_none _ _ h _
  simp [main_, hb]

theorem scoreGroups_eq_filterMap
    (a : List PeptideIdentification → List PeptideIdentification)
    (l : List ConsensusFeature) :
    scoreGroups a l = l.filterMap (fun cf =>
      match a cf.peptideIdentifications with
      | [] => none
      | h :: _ => some { h with rt := some cf.rt, mz := some cf.mz }) := by
  induction l with
  | nil => rfl
  | cons cf rest ih =>
    simp only [scoreGroups, List.filterMap_cons]
    cases hcf : a cf.peptideIdentifications with
    | nil => simpa [hcf] using ih
    | cons h t => simp [hcf, ih]

theorem scoreGroups_length_le
    (a : List PeptideIdentification → List PeptideIdentification)
    (l : List ConsensusFeature) :
    (scoreGroups a l).length ≤ l.length := by
  induction l with
  | nil => simp [scoreGroups]
  | cons cf rest ih =>
    simp only [scoreGroups]
    cases hcf : a cf.peptideIdentifications with
    | nil =>
      simp only [hcf, List.length_cons]
      omega
    | cons h t =>
      simp only [hcf, List.length_cons]
      omega

theorem scoreGroups_length_lt
    (a : List PeptideIdentification → List PeptideIdentification)
    (l : List ConsensusFeature)
    (h : ∃ cf ∈ l, a cf.peptideIdentifications = []) :
    (scoreGroups a l).length < l.length := by
  induction l with
  | nil => simp at h
  | cons cf rest ih =>
    simp only [scoreGroups]
    cases hcf : a cf.peptideIdentifications with
    | nil =>
      have hle := scoreGroups_length_le a rest
      simp only [hcf, List.length_cons]
      omega
    | cons hh tt =>
      have hrest : ∃ q ∈ rest, a q.peptideIdentifications = [] := by
        obtain ⟨q, hq, hbad⟩ := h
        rcases List.mem_cons.mp hq with h2 | hq2
        · subst h2
          rw [hbad] at hcf
          cases hcf
        · exact ⟨q, hq2, hbad⟩
      have hlt := ih hrest
      simp only [hcf, List.length_cons]
      omega

/-! Theorems about the claims. -/

/-- C1: for flat (idXML) input, if any identification event lacks RT or m/z,
the run fails with `INCOMPATIBLE_INPUT_DATA` and no output is stored,
regardless of the grouping function and the consensus scorer — i.e. before any
grouping or scoring is performed. -/
theorem idxml_missing_coordinate_aborts (cfg : ToolConfig) (ctx : ToolContext)
    (d : Params) (protIds : List ProteinIdentification)
    (pepIds : List PeptideIdentification)
    (h : ∃ p ∈ pepIds, p.hasRT = false ∨ p.hasMZ = false) :
    ∀ (g : Params → List (List Feature) → List ConsensusFeature)
      (a : Params → List PeptideIdentification → List PeptideIdentification),
      main_ cfg ctx d g a (.idXML protIds pepIds) =
        (.INCOMPATIBLE_INPUT_DATA, .noStore) :=
  fun g a => main_idXML_incompatible cfg ctx d g a protIds pepIds h

/-- Witness for C1: a concrete idXML input whose single peptide identification
lacks m/z makes the run abort with no output. -/
theorem idxml_missing_coordinate_aborts_witness :
    (∃ p ∈ [pepBad], p.hasRT = false ∨ p.hasMZ = false) ∧
      main_ cfg0 ctx0 [] g0 aId (.idXML protIds1 [pepBad]) =
        (.INCOMPATIBLE_INPUT_DATA, .noStore) :=
  ⟨by decide, idxml_missing_coordinate_aborts cfg0 ctx0 [] protIds1 [pepBad]
    (by decide) g0 aId⟩

/-- C10: an input whose detected type is none of idXML, featureXML,
consensusXML skips all three branches — no grouping, no scoring, no store —
and the routine still returns `EXECUTION_OK`. -/
theorem unknown_type_returns_execution_ok (cfg : ToolConfig) (ctx : ToolContext)
    (d : Params) (g : Params → List (List Feature) → List ConsensusFeature)
    (a : Params → List PeptideIdentification → List PeptideIdentification) :
    main_ cfg ctx d g a .unknown = (.EXECUTION_OK, .noStore) := rfl

/-- C4: in the flat (idXML) path, when every event carries its coordinates
(`builtMaps` succeeds), the stored output collects, in grouping order, exactly
the first scored peptide identification of each group whose scored list is
non-empty, with its RT and m/z set to the group's centroid coordinates. -/
theorem idxml_collects_first_hit_per_group (cfg : ToolConfig) (ctx : ToolContext)
    (d : Params) (g : Params → List (List Feature) → List ConsensusFeature)
    (a : Params → List PeptideIdentification → List PeptideIdentification)
    (protIds : List ProteinIdentification) (pepIds : List PeptideIdentification)
    (maps : List (List Feature)) (h : builtMaps protIds pepIds = some maps) :
    main_ cfg ctx d g a (.idXML protIds pepIds) =
      (.EXECUTION_OK, .idXML (setProteinIdentifications_ ctx protIds)
        ((g (linkerParams d cfg.rt_delta cfg.mz_delta) maps).filterMap fun cf =>
          match a (scorerParams cfg (.idXML protIds pepIds))
              cf.peptideIdentifications with
          | [] => none
          | hd :: _ => some { hd with rt := some cf.rt, mz := some cf.mz })) := by
  simp [main_, h, scoreGroups_eq_filterMap]

/-- Witness for C4: a concrete one-run input whose single group is scored by
the identity scorer yields the group's first hit stamped with the centroid
coordinates. -/
theorem idxml_collects_first_hit_per_group_witness :
    builtMaps protIds1 [pepGood] = some mapsGood ∧
      main_ cfg0 ctx0 [] g1 aId (.idXML protIds1 [pepGood]) =
        (.EXECUTION_OK, .idXML (setProteinIdentifications_ ctx0 protIds1)
          ((g1 (linkerParams [] cfg0.rt_delta cfg0.mz_delta) mapsGood).filterMap
            fun cf =>
            match aId (scorerParams cfg0 (.idXML protIds1 [pepGood]))
                cf.peptideIdentifications with
            | [] => none
            | hd :: _ => some { hd with rt := some cf.rt, mz := some cf.mz })) :=
  ⟨by decide, idxml_collects_first_hit_per_group cfg0 ctx0 [] g1 aId protIds1
    [pepGood] mapsGood (by decide)⟩

/-- C9: a group whose consensus scorer yields an empty hit list contributes no
entry to the flat-path output (the output has strictly fewer entries than the
grouping has groups), and the run still completes with `EXECUTION_OK`. -/
theorem empty_group_dropped_run_succeeds (cfg : ToolConfig) (ctx : ToolContext)
    (d : Params) (g : Params → List (List Feature) → List ConsensusFeature)
    (a : Params → List PeptideIdentification → List PeptideIdentification)
    (protIds : List ProteinIdentification) (pepIds : List PeptideIdentification)
    (maps : List (List Feature)) (h1 : builtMaps protIds pepIds = some maps)
    (h2 : ∃ cf ∈ g (linkerParams d cfg.rt_delta cfg.mz_delta) maps,
        a (scorerParams cfg (.idXML protIds pepIds)) cf.peptideIdentifications = []) :
    (main_ cfg ctx d g a (.idXML protIds pepIds)).1 = .EXECUTION_OK ∧
      (outputPepIds (main_ cfg ctx d g a (.idXML protIds pepIds)).2).length <
        (g (linkerParams d cfg.rt_delta cfg.mz_delta) maps).length := by
  constructor
  · simp [main_, h1]
  · simp only [main_, h1, outputPepIds]
    exact scoreGroups_length_lt _ _ h2

/-- Witness for C9: with a grouping of one group and a scorer that returns no
hits, the output carries no entry for that group and the run succeeds. -/
theorem empty_group_dropped_run_succeeds_witness :
    (main_ cfg0 ctx0 [] g1 aEmpty (.idXML protIds1 [pepGood])).1 = .EXECUTION_OK ∧
      (outputPepIds (main_ cfg0 ctx0 [] g1 aEmpty (.idXML protIds1 [pepGood])).2).length <
        (g1 (linkerParams [] cfg0.rt_delta cfg0.mz_delta) mapsGood).length :=
  empty_group_dropped_run_succeeds cfg0 ctx0 [] g1 aEmpty protIds1 [pepGood]
    mapsGood (by decide) (by decide)

/-- C2 counterexample: a pre-grouped (featureXML) input carrying an event with
RT present but m/z absent does not fail — the run returns `EXECUTION_OK` and
stores an output, contradicting the claim that every input shape rejects
missing coordinates. -/
theorem pregrouped_missing_mz_succeeds :
    pepBad.hasMZ = false ∧
      (main_ cfg0 ctx0 [] g0 aId (.featureXML fmBad)).1 = .EXECUTION_OK ∧
      (main_ cfg0 ctx0 [] g0 aId (.featureXML fmBad)).2 ≠ .noStore := by
  refine ⟨rfl, rfl, ?_⟩
  decide

/-- C2 amended: only the flat idXML path rejects an event with a missing RT or
m/z coordinate with `INCOMPATIBLE_INPUT_DATA`; the pre-grouped featureXML and
consensusXML paths perform no such check and always reach `EXECUTION_OK`. -/
theorem missing_coordinate_checked_only_in_idxml (cfg : ToolConfig)
    (ctx : ToolContext) (d : Params)
    (g : Params → List (List Feature) → List ConsensusFeature)
    (a : Params → List PeptideIdentification → List PeptideIdentification)
    (protIds : List ProteinIdentification) (pepIds : List PeptideIdentification)
    (fm : FeatureMap) (cm : ConsensusMap)
    (h : ∃ p ∈ pepIds, p.hasRT = false ∨ p.hasMZ = false) :
    main_ cfg ctx d g a (.idXML protIds pepIds) =
        (.INCOMPATIBLE_INPUT_DATA, .noStore) ∧
      (main_ cfg ctx d g a (.featureXML fm)).1 = .EXECUTION_OK ∧
      (main_ cfg ctx d g a (.consensusXML cm)).1 = .EXECUTION_OK :=
  ⟨main_idXML_incompatible cfg ctx d g a protIds pepIds h, rfl, rfl⟩

/-- Witness for the amended C2 at concrete inputs. -/
theorem missing_coordinate_checked_only_in_idxml_witness :
    main_ cfg0 ctx0 [] g0 aId (.idXML protIds1 [pepBad]) =
        (.INCOMPATIBLE_INPUT_DATA, .noStore) ∧
      (main_ cfg0 ctx0 [] g0 aId (.featureXML fmBad)).1 = .EXECUTION_OK ∧
      (main_ cfg0 ctx0 [] g0 aId (.consensusXML cm0)).1 = .EXECUTION_OK :=
  missing_coordinate_checked_only_in_idxml cfg0 ctx0 [] g0 aId protIds1 [pepBad]
    fmBad cm0 (by decide)

/-- C5: on every input shape the stored output carries exactly one freshly
created run metadata record — search engine "OpenMS/ConsensusID", timestamp
the injected current time, version the injected build version — independent of
the metadata records that came with the input. -/
theorem fresh_run_metadata_replaces_input (cfg : ToolConfig) (ctx : ToolContext)
    (d : Params) (g : Params → List (List Feature) → List ConsensusFeature)
    (a : Params → List PeptideIdentification → List PeptideIdentification)
    (protIds : List ProteinIdentification) (pepIds : List PeptideIdentification)
    (maps : List (List Feature)) (fm : FeatureMap) (cm : ConsensusMap)
    (h : builtMaps protIds pepIds = some maps) :
    outputProtIds (main_ cfg ctx d g a (.idXML protIds pepIds)).2 =
        setProteinIdentifications_ ctx protIds ∧
      outputProtIds (main_ cfg ctx d g a (.featureXML fm)).2 =
        setProteinIdentifications_ ctx fm.proteinIdentifications ∧
      outputProtIds (main_ cfg ctx d g a (.consensusXML cm)).2 =
        setProteinIdentifications_ ctx cm.proteinIdentifications ∧
      ∀ ps : List ProteinIdentification,
        setProteinIdentifications_ ctx ps =
          [{ identifier := "", searchEngine := "OpenMS/ConsensusID"
             searchEngineVersion := ctx.version, dateTime := ctx.now }] := by
  refine ⟨?_, rfl, rfl, fun ps => rfl⟩
  simp [main_, h, outputProtIds]

/-- Witness for C5 at concrete inputs. -/
theorem fresh_run_metadata_replaces_input_witness :
    outputProtIds (main_ cfg0 ctx0 [] g1 aId (.idXML protIds1 [pepGood])).2 =
        setProteinIdentifications_ ctx0 protIds1 ∧
      outputProtIds (main_ cfg0 ctx0 [] g1 aId (.featureXML fm0)).2 =
        setProteinIdentifications_ ctx0 fm0.proteinIdentifications ∧
      outputProtIds (main_ cfg0 ctx0 [] g1 aId (.consensusXML cm0)).2 =
        setProteinIdentifications_ ctx0 cm0.proteinIdentifications ∧
      ∀ ps : List ProteinIdentification,
        setProteinIdentifications_ ctx0 ps =
          [{ identifier := "", searchEngine := "OpenMS/ConsensusID"
             searchEngineVersion := ctx0.version, dateTime := ctx0.now }] :=
  fresh_run_metadata_replaces_input cfg0 ctx0 [] g1 aId protIds1 [pepGood]
    mapsGood fm0 cm0 (by decide)

/-- C6 counterexample: two invocations on the same input and configuration but
at different times produce different outputs — the stored run metadata carries
the invocation timestamp. -/
theorem retry_changes_output_timestamp :
    main_ cfg0 ctx0 [] g0 aId (.featureXML fm0) ≠
      main_ cfg0 ctxLater [] g0 aId (.featureXML fm0) := by
  decide

/-- C6 amended: the pipeline is deterministic up to the metadata timestamp:
two invocations on the same input and configuration (with the same build
version) produce the same exit code and outputs that agree once the metadata
timestamps are erased; with the full time context held fixed the outputs are
identical. -/
theorem deterministic_up_to_timestamp (cfg : ToolConfig) (d : Params)
    (g : Params → List (List Feature) → List ConsensusFeature)
    (a : Params → List PeptideIdentification → List PeptideIdentification)
    (input : ToolInput) (ctx1 ctx2 : ToolContext)
    (h : ctx1.version = ctx2.version) :
    (main_ cfg ctx1 d g a input).1 = (main_ cfg ctx2 d g a input).1 ∧
      stripTimes (main_ cfg ctx1 d g a input).2 =
        stripTimes (main_ cfg ctx2 d g a input).2 := by
  cases input with
  | idXML protIds pepIds =>
    cases hb : builtMaps protIds pepIds with
    | none => simp [main_, hb]
    | some maps => simp [main_, hb, stripTimes, setProteinIdentifications_, h]
  | featureXML m => simp [main_, stripTimes, setProteinIdentifications_, h]
  | consensusXML m => simp [main_, stripTimes, setProteinIdentifications_, h]
  | unknown => exact ⟨rfl, rfl⟩

/-- Witness for the amended C6: two invocations at different times with the
same version agree on exit code and on the output with timestamps erased. -/
theorem deterministic_up_to_timestamp_witness :
    (main_ cfg0 ctx0 [] g0 aId (.featureXML fm0)).1 =
        (main_ cfg0 ctxLater [] g0 aId (.featureXML fm0)).1 ∧
      stripTimes (main_ cfg0 ctx0 [] g0 aId (.featureXML fm0)).2 =
        stripTimes (main_ cfg0 ctxLater [] g0 aId (.featureXML fm0)).2 :=
  deterministic_up_to_timestamp cfg0 [] g0 aId (.featureXML fm0) ctx0 ctxLater rfl

/-- C7: the parameters handed to the grouping engine have charge state
deliberately ignored, the m/z tolerance in absolute mass units (Da), the RT
maximum difference equal to the configured `rt_delta` and the m/z maximum
difference equal to the configured `mz_delta`, whatever the linker's defaults
are. -/
theorem linker_invocation_parameters (d : Params) (rt mz : Rat) :
    getValue (linkerParams d rt mz) "ignore_charge" = some (.s "true") ∧
      getValue (linkerParams d rt mz) "distance_MZ:unit" = some (.s "Da") ∧
      getValue (linkerParams d rt mz) "distance_RT:max_difference" = some (.f rt) ∧
      getValue (linkerParams d rt mz) "distance_MZ:max_difference" = some (.f mz) ∧
      getValue (linkerParams d rt mz) "use_identifications" = some (.s "false") := by
  unfold linkerParams
  refine ⟨?_, ?_, ?_, ?_, ?_⟩
  · rw [getValue_setValue_of_ne _ "distance_MZ:unit" "ignore_charge" _ (by decide),
      getValue_setValue_of_ne _ "distance_MZ:max_difference" "ignore_charge" _ (by decide),
      getValue_setValue_of_ne _ "distance_RT:max_difference" "ignore_charge" _ (by decide),
      getValue_setValue_self]
  · rw [getValue_setValue_self]
  · rw [getValue_setValue_of_ne _ "distance_MZ:unit" "distance_RT:max_difference" _ (by decide),
      getValue_setValue_of_ne _ "distance_MZ:max_difference" "distance_RT:max_difference" _ (by decide),
      getValue_setValue_self]
  · rw [getValue_setValue_of_ne _ "distance_MZ:unit" "distance_MZ:max_difference" _ (by decide),
      getValue_setValue_self]
  · rw [getValue_setValue_of_ne _ "distance_MZ:unit" "use_identifications" _ (by decide),
      getValue_setValue_of_ne _ "distance_MZ:max_difference" "use_identifications" _ (by decide),
      getValue_setValue_of_ne _ "distance_RT:max_difference" "use_identifications" _ (by decide),
      getValue_setValue_of_ne _ "ignore_charge" "use_identifications" _ (by decide),
      getValue_setValue_self]

/-- C8 counterexample: a configuration selecting the probabilistic PEPMatrix
variant while the input score type is a raw search-engine score passes the
registered validation and the run proceeds through grouping and scoring to a
stored output — it is not rejected before work begins. -/
theorem pep_variant_with_raw_scores_not_rejected :
    validConfig cfgPM = true ∧
      pepGood.scoreType = "XTandem" ∧
      (runTool cfgPM ctx0 [] g1 aId (.idXML protIds1 [pepGood])).1 = .EXECUTION_OK ∧
      (runTool cfgPM ctx0 [] g1 aId (.idXML protIds1 [pepGood])).2 ≠ .noStore := by
  decide

/-- C8 amended: the registered validation rejects a negative `rt_delta` or
`mz_delta`, a negative `considered_hits` and an algorithm outside the valid
set, and an invalid configuration never reaches `main_`; score types are not
part of this validation. -/
theorem config_validation_scope (cfg : ToolConfig) :
    (validConfig cfg = true ↔
      (0 ≤ cfg.rt_delta ∧ 0 ≤ cfg.mz_delta ∧ 0 ≤ cfg.considered_hits ∧
        cfg.algorithm ∈ validAlgos)) ∧
      (validConfig cfg = false →
        ∀ (ctx : ToolContext) (d : Params)
          (g : Params → List (List Feature) → List ConsensusFeature)
          (a : Params → List PeptideIdentification → List PeptideIdentification)
          (input : ToolInput),
          runTool cfg ctx d g a input = (.ILLEGAL_PARAMETERS, .noStore)) := by
  constructor
  · simp [validConfig, Bool.and_eq_true, decide_eq_true_eq, List.contains,
      List.elem_iff, and_assoc]
  · intro hv ctx d g a input
    simp [runTool, hv]

/-- Witness for the amended C8: a negative `rt_delta` fails validation and the
tool rejects the run without doing any work. -/
theorem config_validation_scope_witness :
    (validConfig cfgNeg = true ↔
      (0 ≤ cfgNeg.rt_delta ∧ 0 ≤ cfgNeg.mz_delta ∧ 0 ≤ cfgNeg.considered_hits ∧
        cfgNeg.algorithm ∈ validAlgos)) ∧
      runTool cfgNeg ctx0 [] g0 aId .unknown = (.ILLEGAL_PARAMETERS, .noStore) :=
  ⟨(config_validation_scope cfgNeg).1,
    (config_validation_scope cfgNeg).2 (by decide) ctx0 [] g0 aId .unknown⟩

/-- C3: evaluation at the failing input — for a pre-grouped (featureXML or
consensusXML) input with two runs, the parameter set handed to the scorer has
no `number_of_runs` entry at all; the run count lands under the stale key
`ranks:number_of_runs` instead. The idXML path sets `number_of_runs` as the
claim states. -/
theorem pregrouped_number_of_runs_key_mismatch :
    getValue (scorerParams cfgRanks (.featureXML fm2)) "number_of_runs" = none ∧
      getValue (scorerParams cfgRanks (.featureXML fm2)) "ranks:number_of_runs" =
        some (.i 2) ∧
      getValue (scorerParams cfgRanks (.consensusXML cm2)) "number_of_runs" = none ∧
      getValue (scorerParams cfgRanks (.idXML protIds2 [])) "number_of_runs" =
        some (.i 2) := by
  decide

end ConsensusID
